import Mathlib

/- Verification of the aao_bot message-triage pipeline.
   Strings are modelled as `List Char`; Python truthiness of a string is
   emptiness of the list; `Option` models Python `None` where the code
   distinguishes it from the empty string. -/

/-- Python whitespace characters recognised by `str.strip` (ASCII range). -/
def isPySpace (c : Char) : Bool :=
  c == ' ' || c == '\t' || c == '\n' || c == '\r' || c == Char.ofNat 11 || c == Char.ofNat 12

/-- Model of Python `str.strip()`: drop whitespace from both ends. -/
def pyStrip (s : List Char) : List Char :=
  List.rdropWhile isPySpace (List.dropWhile isPySpace s)

/-- Sentinel marker for a non-question, from `config.py`. -/
def NOT_A_QUESTION_MARKER : List Char := "[NOT_A_QUESTION]".toList

/-- Sentinel marker for an unanswerable question, from `config.py`. -/
def CANNOT_ANSWER_MARKER : List Char := "[CANNOT_ANSWER]".toList

/-- Static configuration of the bot (from `bot/config.py`): allowlisted group
    chats, advisor ids, moderator chat id as a decimal string (empty means
    unset), whether the OpenAI client was constructed, and the FAQ text. -/
structure BotConfig where
  GROUP_CHAT_IDS : List Int
  ADVISOR_USER_IDS : List Int
  MODERATOR_CHAT_ID : List Char
  clientConfigured : Bool
  FAQ_CONTENT : List Char

/-- The backquote character, third markup toggle in `sanitize_markdown`. -/
def backquote : Char := Char.ofNat 96

/-- Insert a backslash before the last occurrence of `c`
    (models `text[:last_pos] + chr(92) + char + text[last_pos+1:]`
    with `last_pos = text.rfind(char)`); identity when `c` is absent. -/
def escapeLastChar (c : Char) : List Char → List Char
  | [] => []
  | x :: xs => if x = c ∧ c ∉ xs then '\\' :: c :: xs else x :: escapeLastChar c xs

/-- Replace every occurrence of `c` by a backslash followed by `c`
    (models `text.replace(char, chr(92) + char)`). -/
def escapeAllChar (c : Char) : List Char → List Char
  | [] => []
  | x :: xs => if x = c then '\\' :: c :: escapeAllChar c xs else x :: escapeAllChar c xs

/-- One toggle-character pass of `sanitize_markdown`: if the count of `c` in
    the current text is odd, escape its last occurrence. -/
def fixUnmatched (c : Char) (s : List Char) : List Char :=
  if s.count c % 2 ≠ 0 then escapeLastChar c s else s

/-- Bracket pass of `sanitize_markdown`: if the counts of the two square
    brackets differ, escape all of them (first `[`, then `]`). -/
def bracketFix (s : List Char) : List Char :=
  if s.count '[' ≠ s.count ']' then escapeAllChar ']' (escapeAllChar '[' s) else s

/-- `sanitize_markdown` from `bot/utils.py`: empty text is returned as-is;
    otherwise fix odd toggles in order, fix unbalanced brackets, then escape
    the three characters greater-than, less-than, ampersand unconditionally. -/
def sanitize_markdown (s : List Char) : List Char :=
  if s = [] then s
  else
    escapeAllChar '&' (escapeAllChar '<' (escapeAllChar '>'
      (bracketFix (fixUnmatched backquote (fixUnmatched '_' (fixUnmatched '*' s))))))

/-- Decimal rendering of an integer, as Python `str(int)`. -/
def intStr (i : Int) : List Char :=
  if i < 0 then '-' :: Nat.toDigits 10 i.natAbs else Nat.toDigits 10 i.natAbs

/-- Fixed leading part of every generated Telegram deep link. -/
def tmeBase : List Char := "https://t.me/c/".toList

/-- `_build_message_link` from `bot/handlers/messages.py`: strip a leading
    broadcast marker (dash one zero zero) from the decimal chat id before
    embedding it in the link path, then append the message id. -/
def build_message_link (chat_id message_id : Int) : List Char :=
  if ('-' :: '1' :: '0' :: '0' :: []) <+: intStr chat_id
  then tmeBase ++ (intStr chat_id).drop 4 ++ '/' :: intStr message_id
  else tmeBase ++ intStr chat_id ++ '/' :: intStr message_id

/-- Behaviour of the external completion service on the single request the
    classifier sends: either a response whose content may be absent, or a
    raised transport/service exception (timeout, rate limit, auth failure). -/
inductive ServiceBehavior
  | ok (content : Option (List Char))
  | raise (err : List Char)

/-- `get_llm_response` from `bot/openai_client.py`, with a flag recording
    whether the external completion service was actually invoked. -/
def get_llm_response_core (cfg : BotConfig) (user_message : List Char)
    (svc : ServiceBehavior) : List Char × Bool :=
  if cfg.clientConfigured = false then (CANNOT_ANSWER_MARKER, false)
  else if cfg.FAQ_CONTENT = [] then (CANNOT_ANSWER_MARKER, false)
  else if user_message = [] ∨ pyStrip user_message = [] then (NOT_A_QUESTION_MARKER, false)
  else
    match svc with
    | ServiceBehavior.raise _ => (CANNOT_ANSWER_MARKER, true)
    | ServiceBehavior.ok none => (CANNOT_ANSWER_MARKER, true)
    | ServiceBehavior.ok (some t) =>
        if t = [] then (CANNOT_ANSWER_MARKER, true)
        else if pyStrip t = [] then (CANNOT_ANSWER_MARKER, true)
        else (pyStrip t, true)

/-- The string returned by `get_llm_response`. -/
def get_llm_response (cfg : BotConfig) (user_message : List Char)
    (svc : ServiceBehavior) : List Char :=
  (get_llm_response_core cfg user_message svc).1

/-- The three triage outcomes of the Answer Classifier. -/
inductive Classification
  | NotQuestion
  | CannotAnswer
  | Answered (text : List Char)
  deriving DecidableEq

/-- The marker dispatch performed on `llm_answer` at the top of
    `_process_llm_response`: an empty or whitespace-only answer is replaced
    by the cannot-answer marker (and therefore lands in the cannot-answer
    branch), then the two markers are matched exactly and anything else is an
    answer. -/
def classifyAnswer (llm_answer : List Char) : Classification :=
  if llm_answer = [] ∨ pyStrip llm_answer = [] then Classification.CannotAnswer
  else if llm_answer = NOT_A_QUESTION_MARKER then Classification.NotQuestion
  else if llm_answer = CANNOT_ANSWER_MARKER then Classification.CannotAnswer
  else Classification.Answered llm_answer

/-- The composite classifier of the spec: the service call of
    `get_llm_response` followed by the marker dispatch of
    `_process_llm_response`. -/
def classify (cfg : BotConfig) (user_message : List Char)
    (svc : ServiceBehavior) : Classification :=
  classifyAnswer (get_llm_response cfg user_message svc)

/-- An incoming text message as the pipeline sees it (transport-normalised;
    messages lacking a text, sender or chat are dropped by
    `_is_valid_message` before any effect and are not modelled further). -/
structure Msg where
  message_id : Int
  chat_id : Int
  chat_title : Option (List Char)
  user_id : Int
  first_name : List Char
  last_name : Option (List Char)
  username : Option (List Char)
  text : List Char

/-- One recorded delivery attempt: strategy name, success flag, error text. -/
structure DeliveryAttempt where
  method : List Char
  success : Bool
  error : List Char
  deriving DecidableEq

/-- The two escalation templates of the Escalation Notifier. -/
inductive ModTemplate
  | cannotAnswer
  | deliveryFailed
  deriving DecidableEq

/-- A message sent to the moderation channel: which template, and its text. -/
structure ModMsg where
  template : ModTemplate
  text : List Char
  deriving DecidableEq

/-- Everything externally observable about handling one incoming message. -/
structure MsgOutcome where
  classifierInvoked : Bool
  serviceInvoked : Bool
  attempts : List DeliveryAttempt
  delivered : Bool
  failedHandoff : Option (List DeliveryAttempt)
  moderatorMsgs : List ModMsg
  deriving DecidableEq

/-- The outcome when the pipeline does nothing. -/
def noOutcome : MsgOutcome :=
  { classifierInvoked := false, serviceInvoked := false, attempts := []
    delivered := false, failedHandoff := none, moderatorMsgs := [] }

/-- The outside world seen by one unit of work: how the completion service
    behaves, and how the chat surface answers each outbound send (`none` is
    success, `some e` is the raised exception text). -/
structure Env where
  svc : ServiceBehavior
  send : List Char → List Char → Option (List Char)

/-- Strategy name of the first delivery attempt. -/
def methodMarkdown : List Char := "markdown".toList

/-- Strategy name of the second delivery attempt. -/
def methodSanitized : List Char := "sanitized_markdown".toList

/-- Strategy name of the third delivery attempt. -/
def methodPlain : List Char := "plain_text".toList

/-- `_try_send_response_with_error`: returns the success flag and the error
    text (empty on success). -/
def try_send_response (env : Env) (method text : List Char) : Bool × List Char :=
  match env.send method text with
  | none => (true, [])
  | some e => (false, e)

/-- Python `x or default` on an optional string. -/
def orElseStr (o : Option (List Char)) (d : List Char) : List Char :=
  match o with
  | some s => if s = [] then d else s
  | none => d

/-- Python str() rendering of an optional string in an f-string: `None`
    renders as the four letters None. -/
def optionPyStr (o : Option (List Char)) : List Char :=
  match o with
  | some s => s
  | none => "None".toList

/-- Chat title fallback used by `_notify_moderator_about_question`. -/
def chatTitleOr (m : Msg) : List Char :=
  match m.chat_title with
  | some t => if t = [] then "Chat ".toList ++ intStr m.chat_id else t
  | none => "Chat ".toList ++ intStr m.chat_id

/-- Everything preceding the question text in the cannot-answer template. -/
def qaHeader (m : Msg) : List Char :=
  "❓ **Student Question Alert**\n**Chat:** ".toList ++ chatTitleOr m ++
  " (ID: ".toList ++ intStr m.chat_id ++
  ")\n**User:** ".toList ++ m.first_name ++ " ".toList ++ orElseStr m.last_name [] ++
  " (@".toList ++ orElseStr m.username ("no_username".toList) ++
  ") (ID: ".toList ++ intStr m.user_id ++ ")\n**Question:** ".toList

/-- Optional error block appended to the cannot-answer template. -/
def qaErrInfo (perr : Option (List Char)) : List Char :=
  match perr with
  | some e => "\n**Error:** ".toList ++ e
  | none => []

/-- The moderator message built by `_notify_moderator_about_question`: chat
    and sender context, the question truncated to 500 characters, and the
    deep link. -/
def questionAlertMessage (m : Msg) (message_text : List Char)
    (perr : Option (List Char)) : List Char :=
  qaHeader m ++ message_text.take 500 ++
  (if 500 < message_text.length then "...".toList else []) ++
  "\n**Link:** ".toList ++ build_message_link m.chat_id m.message_id ++ qaErrInfo perr

/-- One line of the delivery-attempts summary in the delivery-failed
    template. -/
def attemptLine (a : DeliveryAttempt) : List Char :=
  "- ".toList ++ a.method ++ ": ".toList ++
  (if a.success then "✅".toList else "❌".toList) ++ " ".toList ++ a.error

/-- The newline-joined summary of all delivery attempts, in order. -/
def attemptsSummary (attempts : List DeliveryAttempt) : List Char :=
  List.intercalate ("\n".toList) (attempts.map attemptLine)

/-- Everything preceding the query text in the delivery-failed template. -/
def dfHeader (m : Msg) : List Char :=
  "🚨 **Failed to deliver answer**\n**User:** ".toList ++ m.first_name ++
  " ".toList ++ orElseStr m.last_name [] ++
  " (@".toList ++ orElseStr m.username ("no_username".toList) ++
  ") (ID: ".toList ++ intStr m.user_id ++
  ")\n**Chat:** ".toList ++ optionPyStr m.chat_title ++
  " (ID: ".toList ++ intStr m.chat_id ++ ")\n**Query:** ".toList

/-- The moderator message built by `_handle_failed_response`: sender and chat
    context, the query truncated to 300 characters, the full ordered attempt
    summary, and the answer truncated to 1000 characters. -/
def deliveryFailedMessage (m : Msg) (message_text llm_answer : List Char)
    (attempts : List DeliveryAttempt) : List Char :=
  dfHeader m ++ message_text.take 300 ++
  (if 300 < message_text.length then "...".toList else []) ++
  "\n\n**Delivery Attempts:**\n".toList ++ attemptsSummary attempts ++
  "\n\n**LLM Answer:**\n".toList ++ llm_answer.take 1000 ++
  (if 1000 < llm_answer.length then "...".toList else [])

/-- Outcome of the Delivery Engine alone. -/
structure DeliveryOutcome where
  attempts : List DeliveryAttempt
  delivered : Bool
  failedHandoff : Option (List DeliveryAttempt)
  moderatorMsgs : List ModMsg
  deriving DecidableEq

/-- `_handle_successful_answer` from `bot/handlers/messages.py`: try the
    strategies markdown, sanitized markdown, plain text in order, stop at the
    first success, record every attempt, and on total exhaustion hand the
    attempt list to `_handle_failed_response`, which messages the moderator
    when a moderation channel is configured. -/
def handle_successful_answer (cfg : BotConfig) (env : Env) (m : Msg)
    (llm_answer message_text : List Char) : DeliveryOutcome :=
  let r1 := try_send_response env methodMarkdown llm_answer
  let a1 : DeliveryAttempt := ⟨methodMarkdown, r1.1, r1.2⟩
  if r1.1 then ⟨[a1], true, none, []⟩
  else
    let r2 := try_send_response env methodSanitized (sanitize_markdown llm_answer)
    let a2 : DeliveryAttempt := ⟨methodSanitized, r2.1, r2.2⟩
    if r2.1 then ⟨[a1, a2], true, none, []⟩
    else
      let r3 := try_send_response env methodPlain llm_answer
      let a3 : DeliveryAttempt := ⟨methodPlain, r3.1, r3.2⟩
      if r3.1 then ⟨[a1, a2, a3], true, none, []⟩
      else
        ⟨[a1, a2, a3], false, some [a1, a2, a3],
         if cfg.MODERATOR_CHAT_ID ≠ [] then
           [⟨ModTemplate.deliveryFailed,
             deliveryFailedMessage m message_text llm_answer [a1, a2, a3]⟩]
         else []⟩

/-- `_process_llm_response`: call the classifier, dispatch on the markers;
    not-a-question returns silently, cannot-answer escalates via
    `_handle_unanswerable_question` (when a moderation channel is
    configured), an answer goes to the Delivery Engine. -/
def process_llm_response (cfg : BotConfig) (env : Env) (m : Msg)
    (message_text : List Char) : MsgOutcome :=
  let res := get_llm_response_core cfg message_text env.svc
  match classifyAnswer res.1 with
  | Classification.NotQuestion =>
      { classifierInvoked := true, serviceInvoked := res.2, attempts := []
        delivered := false, failedHandoff := none, moderatorMsgs := [] }
  | Classification.CannotAnswer =>
      { classifierInvoked := true, serviceInvoked := res.2, attempts := []
        delivered := false, failedHandoff := none
        moderatorMsgs :=
          if cfg.MODERATOR_CHAT_ID ≠ [] then
            [⟨ModTemplate.cannotAnswer, questionAlertMessage m message_text none⟩]
          else [] }
  | Classification.Answered a =>
      let d := handle_successful_answer cfg env m a message_text
      { classifierInvoked := true, serviceInvoked := res.2, attempts := d.attempts
        delivered := d.delivered, failedHandoff := d.failedHandoff
        moderatorMsgs := d.moderatorMsgs }

/-- `_should_ignore_message`: ordered gate checks — unauthorized chat,
    advisor sender, inactive flag, command or empty text. -/
def should_ignore_message (cfg : BotConfig) (active : Bool) (m : Msg)
    (message_text : List Char) : Bool :=
  if cfg.GROUP_CHAT_IDS ≠ [] ∧ m.chat_id ∉ cfg.GROUP_CHAT_IDS then true
  else if m.user_id ∈ cfg.ADVISOR_USER_IDS then true
  else if active = false then true
  else if message_text.head? = some '/' ∨ message_text = [] then true
  else false

/-- `handle_message`: validity check, strip, access gate, then the
    classification and delivery pipeline. -/
def handle_message (cfg : BotConfig) (active : Bool) (env : Env) (m : Msg) :
    MsgOutcome :=
  if m.text = [] then noOutcome
  else if should_ignore_message cfg active m (pyStrip m.text) then noOutcome
  else process_llm_response cfg env m (pyStrip m.text)

/-- A single Telegram reaction, either a plain emoji or a custom one. -/
inductive RType
  | emoji (e : List Char)
  | custom (cid : List Char)
  deriving DecidableEq

/-- A reaction update: chat, message, optional actor, old and new reaction
    sets. -/
structure ReactionEvent where
  chat_id : Int
  message_id : Int
  actor : Option Int
  old_reaction : List RType
  new_reaction : List RType

/-- The designated downvote emoji. -/
def downvoteEmoji : List Char := "👎".toList

/-- The downvote test of `_process_downvote`: some plain-emoji entry of the
    new reaction set equals the downvote emoji (the old set is not read). -/
def isNewDownvote (rs : List RType) : Bool :=
  rs.any fun r =>
    match r with
    | RType.emoji e => e == downvoteEmoji
    | RType.custom _ => false

/-- `_process_downvote`: returns whether a delete request is issued for the
    referenced message (its success or failure is logged and swallowed). -/
def process_downvote (cfg : BotConfig) (ev : ReactionEvent) : Bool :=
  if isNewDownvote ev.new_reaction = false then false
  else if cfg.MODERATOR_CHAT_ID ≠ [] ∧ intStr ev.chat_id = cfg.MODERATOR_CHAT_ID then false
  else true

/-- `handle_reaction_downvote`: an event with no actor is processed as a chat
    downvote; an event from a non-advisor is ignored; an advisor event is
    processed. Returns whether a delete request is issued. -/
def handle_reaction_downvote (cfg : BotConfig) (ev : ReactionEvent) : Bool :=
  match ev.actor with
  | none => process_downvote cfg ev
  | some uid => if uid ∈ cfg.ADVISOR_USER_IDS then process_downvote cfg ev else false

/- Spec-side rendering of the sanitization transform (claim C7): the same
   passes, but every condition reads counts of the ORIGINAL input, as the
   spec words it. -/

/-- Spec wording of a toggle pass: if the input contains an odd count of the
    character, escape its last occurrence. -/
def fixOddSpec (c : Char) (orig cur : List Char) : List Char :=
  if orig.count c % 2 = 1 then escapeLastChar c cur else cur

/-- Spec wording of the bracket pass: if the input counts of the two square
    brackets differ, escape all of them. -/
def bracketFixSpec (orig cur : List Char) : List Char :=
  if orig.count '[' ≠ orig.count ']' then escapeAllChar ']' (escapeAllChar '[' cur)
  else cur

/-- The sanitization transform as the spec describes it. -/
def sanitizeSpec (s : List Char) : List Char :=
  escapeAllChar '&' (escapeAllChar '<' (escapeAllChar '>'
    (bracketFixSpec s (fixOddSpec backquote s (fixOddSpec '_' s (fixOddSpec '*' s s))))))

/- Concrete states used by witnesses and counterexamples. -/

/-- Concrete configuration used by several witnesses: no allowlist, advisor
    id 1, moderation channel configured, client configured, nonempty FAQ. -/
def cfgW : BotConfig :=
  { GROUP_CHAT_IDS := [], ADVISOR_USER_IDS := [1]
    MODERATOR_CHAT_ID := "-100555".toList
    clientConfigured := true, FAQ_CONTENT := "faq".toList }

/-- A configuration with no OpenAI client and no FAQ loaded. -/
def cfgNoClient : BotConfig :=
  { GROUP_CHAT_IDS := [], ADVISOR_USER_IDS := [1], MODERATOR_CHAT_ID := []
    clientConfigured := false, FAQ_CONTENT := [] }

/-- An environment in which the service answers and every send succeeds. -/
def envAllOk : Env := ⟨ServiceBehavior.ok (some ("An answer".toList)), fun _ _ => none⟩

/-- An environment in which the service answers but every send raises. -/
def envAllFail : Env :=
  ⟨ServiceBehavior.ok (some ("An answer".toList)), fun _ _ => some ("BadRequest".toList)⟩

/-- An environment in which the service reports it cannot answer. -/
def envCA : Env := ⟨ServiceBehavior.ok (some CANNOT_ANSWER_MARKER), fun _ _ => none⟩

/-- A message from advisor 1. -/
def mAdv : Msg :=
  { message_id := 9, chat_id := 5, chat_title := some ("T".toList)
    user_id := 1, first_name := "A".toList, last_name := none, username := none
    text := "hello".toList }

/-- A message from non-advisor 2. -/
def mStu : Msg :=
  { message_id := 10, chat_id := 5, chat_title := some ("T".toList)
    user_id := 2, first_name := "B".toList, last_name := none, username := none
    text := "What are the office hours?".toList }

/-- A reaction event with no identifiable actor carrying a downvote, in an
    ordinary chat, whose old reaction set already contains the downvote. -/
def evAnon : ReactionEvent :=
  { chat_id := 7, message_id := 3, actor := none
    old_reaction := [RType.emoji downvoteEmoji]
    new_reaction := [RType.emoji downvoteEmoji] }

/- Helper lemmas. -/

theorem dropWhile_of_rdropWhile_eq_self {p : Char → Bool} {l : List Char}
    (h : List.dropWhile p l = l) :
    List.dropWhile p (List.rdropWhile p l) = List.rdropWhile p l := by
  obtain ⟨t, ht⟩ := List.rdropWhile_prefix p l
  cases hr : List.rdropWhile p l with
  | nil => simp
  | cons x xs =>
    rw [hr] at ht
    have hx : ¬ p x = true := by
      intro hpx
      have h3 := h
      rw [← ht] at h3
      have h2 : List.dropWhile p (xs ++ t) = x :: (xs ++ t) := by
        simpa [List.dropWhile_cons, hpx] using h3
      have h4 := (List.dropWhile_sublist (p := p) (l := xs ++ t)).length_le
      rw [h2] at h4
      simp at h4
    simp [List.dropWhile_cons, hx]

theorem pyStrip_idem (s : List Char) : pyStrip (pyStrip s) = pyStrip s := by
  unfold pyStrip
  have hu : List.dropWhile isPySpace (List.dropWhile isPySpace s)
      = List.dropWhile isPySpace s :=
    List.dropWhile_idempotent isPySpace s
  rw [dropWhile_of_rdropWhile_eq_self hu, List.rdropWhile_idempotent]

theorem count_escapeLastChar (c d : Char) (s : List Char) (h : ¬ c = '\\') :
    (escapeLastChar d s).count c = s.count c := by
  induction s with
  | nil => rfl
  | cons x xs ih =>
    by_cases hx : x = d ∧ d ∉ xs
    · rw [escapeLastChar, if_pos hx, hx.1]
      simp [List.count_cons, h]
    · rw [escapeLastChar, if_neg hx]
      simp [List.count_cons, ih]

theorem count_fixUnmatched (c d : Char) (s : List Char) (h : ¬ c = '\\') :
    (fixUnmatched d s).count c = s.count c := by
  unfold fixUnmatched
  split
  · exact count_escapeLastChar c d s h
  · rfl

theorem fixUnmatched_eq_fixOddSpec (c : Char) (orig cur : List Char)
    (h : cur.count c = orig.count c) :
    fixUnmatched c cur = fixOddSpec c orig cur := by
  unfold fixUnmatched fixOddSpec
  rw [h]
  rcases Nat.mod_two_eq_zero_or_one (orig.count c) with h2 | h2 <;> simp [h2]

theorem count_fixOddSpec (c d : Char) (orig cur : List Char) (h : ¬ c = '\\') :
    (fixOddSpec d orig cur).count c = cur.count c := by
  unfold fixOddSpec
  split
  · exact count_escapeLastChar c d cur h
  · rfl

theorem bracketFix_eq_spec (orig cur : List Char)
    (h1 : cur.count '[' = orig.count '[') (h2 : cur.count ']' = orig.count ']') :
    bracketFix cur = bracketFixSpec orig cur := by
  unfold bracketFix bracketFixSpec
  rw [h1, h2]

/-- C7: the sanitization transform computes exactly what the spec describes:
    for each markup toggle character (emphasis, strong, code-span), an odd
    count in the input escapes the last occurrence; differing input counts of
    the two square brackets escape all brackets; and the two angle brackets
    and the ampersand are escaped unconditionally. -/
theorem sanitize_markdown_matches_spec (s : List Char) :
    sanitize_markdown s = sanitizeSpec s := by
  by_cases hs : s = []
  · subst hs; rfl
  · unfold sanitize_markdown sanitizeSpec
    rw [if_neg hs]
    rw [fixUnmatched_eq_fixOddSpec '*' s s rfl]
    rw [fixUnmatched_eq_fixOddSpec '_' s _ (count_fixOddSpec _ _ _ _ (by decide))]
    rw [fixUnmatched_eq_fixOddSpec backquote s _ (by
      rw [count_fixOddSpec _ _ _ _ (by decide), count_fixOddSpec _ _ _ _ (by decide)])]
    rw [bracketFix_eq_spec s _ (by
        rw [count_fixOddSpec _ _ _ _ (by decide), count_fixOddSpec _ _ _ _ (by decide),
          count_fixOddSpec _ _ _ _ (by decide)]) (by
        rw [count_fixOddSpec _ _ _ _ (by decide), count_fixOddSpec _ _ _ _ (by decide),
          count_fixOddSpec _ _ _ _ (by decide)])]

/-- C4: the sanitization transform is NOT idempotent: on the one-character
    input less-than, one application yields backslash less-than, and a second
    application escapes again, yielding backslash backslash less-than. The
    escaped character still participates in the unconditional replacement
    pass (and escaped toggle characters still count toward parity), so
    running the transform twice differs from running it once. -/
theorem sanitize_markdown_double_escapes :
    sanitize_markdown ('<' :: []) = '\\' :: '<' :: [] ∧
    sanitize_markdown (sanitize_markdown ('<' :: [])) = '\\' :: '\\' :: '<' :: [] ∧
    sanitize_markdown ('*' :: []) = '\\' :: '*' :: [] ∧
    sanitize_markdown (sanitize_markdown ('*' :: [])) = '\\' :: '\\' :: '*' :: [] := by
  decide

/- Classifier lemmas for C1. -/

theorem classifyAnswer_CA :
    classifyAnswer CANNOT_ANSWER_MARKER = Classification.CannotAnswer := by decide

theorem classifyAnswer_NQ :
    classifyAnswer NOT_A_QUESTION_MARKER = Classification.NotQuestion := by decide

theorem get_llm_response_shape (cfg : BotConfig) (user_message : List Char)
    (svc : ServiceBehavior) :
    get_llm_response cfg user_message svc = CANNOT_ANSWER_MARKER ∨
    get_llm_response cfg user_message svc = NOT_A_QUESTION_MARKER ∨
    (pyStrip (get_llm_response cfg user_message svc) =
       get_llm_response cfg user_message svc ∧
     get_llm_response cfg user_message svc ≠ []) := by
  by_cases h1 : cfg.clientConfigured = false
  · left; simp [get_llm_response, get_llm_response_core, h1]
  · by_cases h2 : cfg.FAQ_CONTENT = []
    · left; simp [get_llm_response, get_llm_response_core, h1, h2]
    · by_cases h3 : user_message = [] ∨ pyStrip user_message = []
      · right; left; simp [get_llm_response, get_llm_response_core, h1, h2, h3]
      · rcases svc with content | e
        · rcases content with _ | t
          · left; simp [get_llm_response, get_llm_response_core, h1, h2, h3]
          · by_cases h4 : t = []
            · left; simp [get_llm_response, get_llm_response_core, h1, h2, h3, h4]
            · by_cases h5 : pyStrip t = []
              · left
                simp [get_llm_response, get_llm_response_core, h1, h2, h3, h4, h5]
              · right; right
                have hv : get_llm_response cfg user_message
                    (ServiceBehavior.ok (some t)) = pyStrip t := by
                  simp [get_llm_response, get_llm_response_core, h1, h2, h3, h4, h5]
                rw [hv]
                exact ⟨pyStrip_idem t, h5⟩
        · left; simp [get_llm_response, get_llm_response_core, h1, h2, h3]

theorem classifyAnswer_shape (r : List Char)
    (h : r = CANNOT_ANSWER_MARKER ∨ r = NOT_A_QUESTION_MARKER ∨
         (pyStrip r = r ∧ r ≠ [])) :
    classifyAnswer r = Classification.NotQuestion ∨
    classifyAnswer r = Classification.CannotAnswer ∨
    (classifyAnswer r = Classification.Answered r ∧ pyStrip r = r ∧ r ≠ []) := by
  rcases h with h | h | ⟨h1, h2⟩
  · subst h; right; left; exact classifyAnswer_CA
  · subst h; left; exact classifyAnswer_NQ
  · have hc : ¬ (r = [] ∨ pyStrip r = []) := by rw [h1]; simp [h2]
    unfold classifyAnswer
    rw [if_neg hc]
    by_cases hnq : r = NOT_A_QUESTION_MARKER
    · left; rw [if_pos hnq]
    · rw [if_neg hnq]
      by_cases hca : r = CANNOT_ANSWER_MARKER
      · right; left; rw [if_pos hca]
      · right; right; rw [if_neg hca]; exact ⟨rfl, h1, h2⟩

/-- C1: `classify` (the service call of `get_llm_response` followed by the
    marker dispatch of `_process_llm_response`) is total with a fail-safe
    bias. Modelled as a total Lean function over every service behaviour
    (success with possibly missing content, raised transport/service error),
    it always yields exactly one of the three variants, an answer is always
    the trimmed nonempty service text, and — whenever the request is actually
    issued, i.e. the client is configured, the knowledge base is nonempty and
    the input is not whitespace-only — every raised error and every empty or
    whitespace-only service output yields `CannotAnswer`. -/
theorem classify_total_failsafe (cfg : BotConfig) (user_message : List Char)
    (svc : ServiceBehavior) :
    (classify cfg user_message svc = Classification.NotQuestion ∨
     classify cfg user_message svc = Classification.CannotAnswer ∨
     ∃ t, classify cfg user_message svc = Classification.Answered t ∧
          pyStrip t = t ∧ t ≠ []) ∧
    (cfg.clientConfigured = true → cfg.FAQ_CONTENT ≠ [] →
     ¬ (user_message = [] ∨ pyStrip user_message = []) →
      ((∀ e, svc = ServiceBehavior.raise e →
          classify cfg user_message svc = Classification.CannotAnswer) ∧
       (svc = ServiceBehavior.ok none →
          classify cfg user_message svc = Classification.CannotAnswer) ∧
       (∀ t, svc = ServiceBehavior.ok (some t) → pyStrip t = [] →
          classify cfg user_message svc = Classification.CannotAnswer))) := by
  constructor
  · have h := classifyAnswer_shape (get_llm_response cfg user_message svc)
      (get_llm_response_shape cfg user_message svc)
    rcases h with h | h | ⟨ha, hb, hc⟩
    · exact Or.inl h
    · exact Or.inr (Or.inl h)
    · exact Or.inr (Or.inr ⟨_, ha, hb, hc⟩)
  · intro hclient hfaq hmsg
    refine ⟨?_, ?_, ?_⟩
    · rintro e rfl
      have hv : get_llm_response cfg user_message (ServiceBehavior.raise e) =
          CANNOT_ANSWER_MARKER := by
        simp [get_llm_response, get_llm_response_core, hclient, hfaq, hmsg]
      unfold classify
      rw [hv]
      exact classifyAnswer_CA
    · rintro rfl
      have hv : get_llm_response cfg user_message (ServiceBehavior.ok none) =
          CANNOT_ANSWER_MARKER := by
        simp [get_llm_response, get_llm_response_core, hclient, hfaq, hmsg]
      unfold classify
      rw [hv]
      exact classifyAnswer_CA
    · rintro t rfl ht
      have hv : get_llm_response cfg user_message (ServiceBehavior.ok (some t)) =
          CANNOT_ANSWER_MARKER := by
        by_cases h4 : t = [] <;>
          simp [get_llm_response, get_llm_response_core, hclient, hfaq, hmsg, h4, ht]
      unfold classify
      rw [hv]
      exact classifyAnswer_CA

/-- C1 witness: at a concrete configured state and a concrete question, a
    raised timeout maps to `CannotAnswer`. -/
theorem classify_total_failsafe_witness :
    classify cfgW ("What are the office hours?".toList)
      (ServiceBehavior.raise ("timeout".toList)) = Classification.CannotAnswer :=
  ((classify_total_failsafe cfgW ("What are the office hours?".toList)
      (ServiceBehavior.raise ("timeout".toList))).2 rfl (by decide) (by decide)).1
    ("timeout".toList) rfl

/-- C2: the access gate. A message whose sender is an advisor (privileged
    operator) never reaches the classifier or the delivery engine, whatever
    the activation flag holds; and when the activation flag is false the
    classifier is never invoked. -/
theorem access_gate_blocks (cfg : BotConfig) (active : Bool) (env : Env) (m : Msg) :
    (m.user_id ∈ cfg.ADVISOR_USER_IDS →
       (handle_message cfg active env m).classifierInvoked = false ∧
       (handle_message cfg active env m).attempts = []) ∧
    (active = false →
       (handle_message cfg active env m).classifierInvoked = false) := by
  by_cases ht : m.text = []
  · simp [handle_message, ht, noOutcome]
  · by_cases hg : cfg.GROUP_CHAT_IDS ≠ [] ∧ m.chat_id ∉ cfg.GROUP_CHAT_IDS
    · have hig : should_ignore_message cfg active m (pyStrip m.text) = true := by
        simp [should_ignore_message, hg]
      simp [handle_message, ht, hig, noOutcome]
    · constructor
      · intro hadv
        have hig : should_ignore_message cfg active m (pyStrip m.text) = true := by
          simp [should_ignore_message, hg, hadv]
        simp [handle_message, ht, hig, noOutcome]
      · intro hact
        by_cases hadv : m.user_id ∈ cfg.ADVISOR_USER_IDS
        · have hig : should_ignore_message cfg active m (pyStrip m.text) = true := by
            simp [should_ignore_message, hg, hadv]
          simp [handle_message, ht, hig, noOutcome]
        · have hig : should_ignore_message cfg active m (pyStrip m.text) = true := by
            simp [should_ignore_message, hg, hadv, hact]
          simp [handle_message, ht, hig, noOutcome]

/-- C2 witness: a concrete advisor message while active triggers neither the
    classifier nor the delivery engine, and a concrete student message while
    inactive does not trigger the classifier. -/
theorem access_gate_blocks_witness :
    ((handle_message cfgW true envAllOk mAdv).classifierInvoked = false ∧
     (handle_message cfgW true envAllOk mAdv).attempts = []) ∧
    (handle_message cfgW false envAllOk mStu).classifierInvoked = false :=
  ⟨(access_gate_blocks cfgW true envAllOk mAdv).1 (by decide),
   (access_gate_blocks cfgW false envAllOk mStu).2 rfl⟩

/-- C3: the delivery engine tries markdown (rich), sanitized markdown, plain
    text in this strict order, stops at the first success, records every
    attempt made with its outcome, and hands the full ordered attempt list to
    the escalation notifier exactly when all three attempts fail. -/
theorem delivery_fallback_chain (cfg : BotConfig) (env : Env) (m : Msg)
    (ans qtext : List Char) :
    (env.send methodMarkdown ans = none →
       handle_successful_answer cfg env m ans qtext =
         ⟨[⟨methodMarkdown, true, []⟩], true, none, []⟩) ∧
    (∀ e1, env.send methodMarkdown ans = some e1 →
       env.send methodSanitized (sanitize_markdown ans) = none →
       handle_successful_answer cfg env m ans qtext =
         ⟨[⟨methodMarkdown, false, e1⟩, ⟨methodSanitized, true, []⟩],
          true, none, []⟩) ∧
    (∀ e1 e2, env.send methodMarkdown ans = some e1 →
       env.send methodSanitized (sanitize_markdown ans) = some e2 →
       env.send methodPlain ans = none →
       handle_successful_answer cfg env m ans qtext =
         ⟨[⟨methodMarkdown, false, e1⟩, ⟨methodSanitized, false, e2⟩,
           ⟨methodPlain, true, []⟩], true, none, []⟩) ∧
    (∀ e1 e2 e3, env.send methodMarkdown ans = some e1 →
       env.send methodSanitized (sanitize_markdown ans) = some e2 →
       env.send methodPlain ans = some e3 →
       handle_successful_answer cfg env m ans qtext =
         ⟨[⟨methodMarkdown, false, e1⟩, ⟨methodSanitized, false, e2⟩,
           ⟨methodPlain, false, e3⟩], false,
          some [⟨methodMarkdown, false, e1⟩, ⟨methodSanitized, false, e2⟩,
                ⟨methodPlain, false, e3⟩],
          if cfg.MODERATOR_CHAT_ID ≠ [] then
            [⟨ModTemplate.deliveryFailed,
              deliveryFailedMessage m qtext ans
                [⟨methodMarkdown, false, e1⟩, ⟨methodSanitized, false, e2⟩,
                 ⟨methodPlain, false, e3⟩]⟩]
          else []⟩) ∧
    ((handle_successful_answer cfg env m ans qtext).delivered = false ↔
       ((∃ e1, env.send methodMarkdown ans = some e1) ∧
        (∃ e2, env.send methodSanitized (sanitize_markdown ans) = some e2) ∧
        (∃ e3, env.send methodPlain ans = some e3))) ∧
    ((handle_successful_answer cfg env m ans qtext).delivered = false ↔
       (handle_successful_answer cfg env m ans qtext).failedHandoff =
         some (handle_successful_answer cfg env m ans qtext).attempts) := by
  rcases h1 : env.send methodMarkdown ans with _ | e1 <;>
    rcases h2 : env.send methodSanitized (sanitize_markdown ans) with _ | e2 <;>
      rcases h3 : env.send methodPlain ans with _ | e3 <;>
        simp [handle_successful_answer, try_send_response, h1, h2, h3]

/-- C3 witness: with every send failing, the engine records the three
    attempts in order, reports no delivery, and hands the full list over;
    with every send succeeding, only the rich attempt is made. -/
theorem delivery_fallback_chain_witness :
    handle_successful_answer cfgW envAllFail mStu ("a*b".toList) ("q".toList) =
      ⟨[⟨methodMarkdown, false, "BadRequest".toList⟩,
        ⟨methodSanitized, false, "BadRequest".toList⟩,
        ⟨methodPlain, false, "BadRequest".toList⟩], false,
       some [⟨methodMarkdown, false, "BadRequest".toList⟩,
             ⟨methodSanitized, false, "BadRequest".toList⟩,
             ⟨methodPlain, false, "BadRequest".toList⟩],
       [⟨ModTemplate.deliveryFailed,
         deliveryFailedMessage mStu ("q".toList) ("a*b".toList)
           [⟨methodMarkdown, false, "BadRequest".toList⟩,
            ⟨methodSanitized, false, "BadRequest".toList⟩,
            ⟨methodPlain, false, "BadRequest".toList⟩]⟩]⟩ ∧
    handle_successful_answer cfgW envAllOk mStu ("a*b".toList) ("q".toList) =
      ⟨[⟨methodMarkdown, true, []⟩], true, none, []⟩ := by
  constructor
  · have h := ((delivery_fallback_chain cfgW envAllFail mStu ("a*b".toList)
      ("q".toList)).2.2.2.1) ("BadRequest".toList) ("BadRequest".toList)
      ("BadRequest".toList) rfl rfl rfl
    rw [h]
    simp [cfgW]
  · exact (delivery_fallback_chain cfgW envAllOk mStu ("a*b".toList)
      ("q".toList)).1 rfl

theorem handle_successful_answer_mod (cfg : BotConfig) (env : Env) (m : Msg)
    (a q : List Char) :
    (handle_successful_answer cfg env m a q).moderatorMsgs.length ≤ 1 ∧
    ((handle_successful_answer cfg env m a q).delivered = true →
       (handle_successful_answer cfg env m a q).moderatorMsgs = []) ∧
    (cfg.MODERATOR_CHAT_ID ≠ [] →
       (handle_successful_answer cfg env m a q).delivered = false →
       (handle_successful_answer cfg env m a q).moderatorMsgs.map ModMsg.template =
         [ModTemplate.deliveryFailed]) := by
  rcases h1 : env.send methodMarkdown a with _ | e1 <;>
    rcases h2 : env.send methodSanitized (sanitize_markdown a) with _ | e2 <;>
      rcases h3 : env.send methodPlain a with _ | e3 <;>
        simp [handle_successful_answer, try_send_response, h1, h2, h3]
  constructor
  · split <;> simp
  · intro hmod
    simp [hmod]

/-- C5: at most one escalation is ever emitted per incoming message; and for
    a message that passes the gate while a moderation channel is configured,
    a `CannotAnswer` classification yields exactly one moderator message with
    the cannot-answer template, an answered message whose delivery exhausts
    all strategies yields exactly one moderator message with the
    delivery-failed template, and a not-a-question classification yields
    none — never both templates for the same message. -/
theorem escalation_exactly_once (cfg : BotConfig) (active : Bool) (env : Env)
    (m : Msg) :
    (handle_message cfg active env m).moderatorMsgs.length ≤ 1 ∧
    (cfg.MODERATOR_CHAT_ID ≠ [] → m.text ≠ [] →
     should_ignore_message cfg active m (pyStrip m.text) = false →
      ((classify cfg (pyStrip m.text) env.svc = Classification.CannotAnswer →
          (handle_message cfg active env m).moderatorMsgs.map ModMsg.template =
            [ModTemplate.cannotAnswer]) ∧
       (∀ t, classify cfg (pyStrip m.text) env.svc = Classification.Answered t →
          (handle_message cfg active env m).delivered = false →
          (handle_message cfg active env m).moderatorMsgs.map ModMsg.template =
            [ModTemplate.deliveryFailed]) ∧
       (classify cfg (pyStrip m.text) env.svc = Classification.NotQuestion →
          (handle_message cfg active env m).moderatorMsgs = []))) := by
  by_cases ht : m.text = []
  · constructor
    · simp [handle_message, ht, noOutcome]
    · intro _ ht2
      exact absurd ht ht2
  · by_cases hig : should_ignore_message cfg active m (pyStrip m.text) = true
    · constructor
      · simp [handle_message, ht, hig, noOutcome]
      · intro _ _ hig2
        rw [hig] at hig2
        exact Bool.noConfusion hig2
    · have hf : should_ignore_message cfg active m (pyStrip m.text) = false := by
        revert hig
        cases should_ignore_message cfg active m (pyStrip m.text) <;> simp
      have hm : handle_message cfg active env m =
          process_llm_response cfg env m (pyStrip m.text) := by
        simp [handle_message, ht, hf]
      have hcl : classify cfg (pyStrip m.text) env.svc =
          classifyAnswer (get_llm_response_core cfg (pyStrip m.text) env.svc).1 := rfl
      rw [hm]
      rcases hc : classifyAnswer (get_llm_response_core cfg (pyStrip m.text) env.svc).1
        with _ | _ | t
      · constructor
        · simp [process_llm_response, hc]
        · intro _ _ _
          refine ⟨?_, ?_, ?_⟩
          · intro hcc
            rw [hcl, hc] at hcc
            cases hcc
          · intro t hcc
            rw [hcl, hc] at hcc
            cases hcc
          · intro _
            simp [process_llm_response, hc]
      · constructor
        · simp [process_llm_response, hc]
          split <;> simp
        · intro hmod _ _
          refine ⟨?_, ?_, ?_⟩
          · intro _
            simp [process_llm_response, hc, hmod]
          · intro t hcc
            rw [hcl, hc] at hcc
            cases hcc
          · intro hcc
            rw [hcl, hc] at hcc
            cases hcc
      · constructor
        · simp [process_llm_response, hc]
          exact (handle_successful_answer_mod cfg env m t (pyStrip m.text)).1
        · intro hmod _ _
          refine ⟨?_, ?_, ?_⟩
          · intro hcc
            rw [hcl, hc] at hcc
            cases hcc
          · intro t2 hcc hdel
            rw [hcl, hc] at hcc
            cases hcc
            simp [process_llm_response, hc] at hdel ⊢
            exact (handle_successful_answer_mod cfg env m t (pyStrip m.text)).2.2
              hmod hdel
          · intro hcc
            rw [hcl, hc] at hcc
            cases hcc

/-- C5 witness: a concrete gated-through student question that the service
    cannot answer produces exactly one moderator message, with the
    cannot-answer template. -/
theorem escalation_exactly_once_witness :
    (handle_message cfgW true envCA mStu).moderatorMsgs.map ModMsg.template =
      [ModTemplate.cannotAnswer] :=
  ((escalation_exactly_once cfgW true envCA mStu).2 (by decide) (by decide)
    (by decide)).1 (by decide)

/-- C6 (amended): characterisation of the retraction handler as implemented:
    a delete request is issued exactly when the NEW reaction set contains the
    downvote emoji, the actor is either absent (anonymous reactions are
    processed as operator-equivalent) or a privileged operator, and the chat
    id string differs from the configured moderation-channel id; the old
    reaction set is never consulted, so the handler is a pure function of the
    current state and reprocessing the same state repeats the delete
    request. -/
theorem delete_request_iff (cfg : BotConfig) (ev : ReactionEvent) :
    (handle_reaction_downvote cfg ev = true ↔
      (isNewDownvote ev.new_reaction = true ∧
       (ev.actor = none ∨ ∃ a, ev.actor = some a ∧ a ∈ cfg.ADVISOR_USER_IDS) ∧
       ¬ (cfg.MODERATOR_CHAT_ID ≠ [] ∧
          intStr ev.chat_id = cfg.MODERATOR_CHAT_ID))) ∧
    (∀ old1 old2 : List RType,
      handle_reaction_downvote cfg { ev with old_reaction := old1 } =
      handle_reaction_downvote cfg { ev with old_reaction := old2 }) := by
  constructor
  · rcases hact : ev.actor with _ | uid
    · by_cases hdv : isNewDownvote ev.new_reaction = true
      · by_cases hmod : cfg.MODERATOR_CHAT_ID ≠ [] ∧
            intStr ev.chat_id = cfg.MODERATOR_CHAT_ID
        · simp [handle_reaction_downvote, process_downvote, hact, hdv, hmod]
        · simp [handle_reaction_downvote, process_downvote, hact, hdv, hmod]
      · rw [Bool.not_eq_true] at hdv
        simp [handle_reaction_downvote, process_downvote, hact, hdv]
    · by_cases hadv : uid ∈ cfg.ADVISOR_USER_IDS
      · by_cases hdv : isNewDownvote ev.new_reaction = true
        · by_cases hmod : cfg.MODERATOR_CHAT_ID ≠ [] ∧
              intStr ev.chat_id = cfg.MODERATOR_CHAT_ID
          · simp [handle_reaction_downvote, process_downvote, hact, hdv, hmod, hadv]
          · simp [handle_reaction_downvote, process_downvote, hact, hdv, hmod, hadv]
        · rw [Bool.not_eq_true] at hdv
          simp [handle_reaction_downvote, process_downvote, hact, hdv, hadv]
      · simp [handle_reaction_downvote, process_downvote, hact, hadv]
  · intro old1 old2
    rfl

/-- C6 counterexample: on a concrete reaction event with no identifiable
    actor — and whose downvote is not newly added, being present in the old
    reaction set as well — the handler still issues a delete request,
    contradicting both the anonymous-events-are-ignored and the
    newly-added-only parts of the claim. -/
theorem retraction_claim_counterexample :
    evAnon.actor = none ∧
    RType.emoji downvoteEmoji ∈ evAnon.old_reaction ∧
    handle_reaction_downvote cfgW evAnon = true := by decide

/-- C9: deep-link construction. If the decimal string of the chat id starts
    with the broadcast marker (dash one zero zero), the link embeds the id
    with that four-character marker stripped; otherwise it embeds the id
    unchanged; in both cases the message id follows as the path suffix. -/
theorem build_message_link_cases (cid mid : Int) :
    (∀ t, intStr cid = '-' :: '1' :: '0' :: '0' :: t →
        build_message_link cid mid = tmeBase ++ t ++ '/' :: intStr mid) ∧
    (¬ (('-' :: '1' :: '0' :: '0' :: []) <+: intStr cid) →
        build_message_link cid mid = tmeBase ++ intStr cid ++ '/' :: intStr mid) := by
  constructor
  · intro t ht
    have hp : ('-' :: '1' :: '0' :: '0' :: []) <+: intStr cid := ⟨t, ht.symm⟩
    unfold build_message_link
    rw [if_pos hp, ht]
    rfl
  · intro hn
    unfold build_message_link
    rw [if_neg hn]

/-- C9 witness: chat id -1005 renders as dash one zero zero five and is
    stripped to five; chat id 42 is embedded unchanged. -/
theorem build_message_link_cases_witness :
    build_message_link (-1005) 2 = tmeBase ++ ('5' :: []) ++ '/' :: intStr 2 ∧
    build_message_link 42 7 = tmeBase ++ intStr 42 ++ '/' :: intStr 7 :=
  ⟨(build_message_link_cases (-1005) 2).1 ('5' :: []) (by decide),
   (build_message_link_cases 42 7).2 (by decide)⟩

/-- C10 (amended): the pre-call short-circuits of `get_llm_response`, in
    their implemented precedence: when the client is configured and the
    knowledge base is nonempty, an empty or whitespace-only input returns the
    not-a-question marker without invoking the completion service; when the
    client is unconfigured or the knowledge base is empty, every input —
    including empty ones — returns the cannot-answer marker without invoking
    the service. -/
theorem llm_short_circuits (cfg : BotConfig) (user_message : List Char) :
    (cfg.clientConfigured = true → cfg.FAQ_CONTENT ≠ [] →
     (user_message = [] ∨ pyStrip user_message = []) →
     ∀ svc, get_llm_response_core cfg user_message svc =
       (NOT_A_QUESTION_MARKER, false)) ∧
    ((cfg.clientConfigured = false ∨ cfg.FAQ_CONTENT = []) →
     ∀ svc, get_llm_response_core cfg user_message svc =
       (CANNOT_ANSWER_MARKER, false)) := by
  constructor
  · intro hc hf hm svc
    simp [get_llm_response_core, hc, hf, hm]
  · intro h svc
    rcases h with h | h
    · simp [get_llm_response_core, h]
    · by_cases hc : cfg.clientConfigured = false <;>
        simp [get_llm_response_core, hc, h]

/-- C10 witness: with a configured client and FAQ, the empty input yields
    the not-a-question marker without a service call; with no client, a
    nonempty question yields the cannot-answer marker without a service
    call. -/
theorem llm_short_circuits_witness :
    get_llm_response_core cfgW [] (ServiceBehavior.raise []) =
      (NOT_A_QUESTION_MARKER, false) ∧
    get_llm_response_core cfgNoClient ("Why?".toList) (ServiceBehavior.raise []) =
      (CANNOT_ANSWER_MARKER, false) :=
  ⟨(llm_short_circuits cfgW []).1 rfl (by decide) (Or.inl rfl)
     (ServiceBehavior.raise []),
   (llm_short_circuits cfgNoClient ("Why?".toList)).2 (Or.inl rfl)
     (ServiceBehavior.raise [])⟩

/-- C10 counterexample: the client and knowledge-base checks precede the
    empty-input check, so on the empty input with an unconfigured client the
    classifier returns the cannot-answer marker — not the not-a-question
    marker the claim promises for every empty input — and classifies as
    `CannotAnswer`. -/
theorem llm_empty_input_unconfigured :
    get_llm_response cfgNoClient [] (ServiceBehavior.ok none) =
      CANNOT_ANSWER_MARKER ∧
    classify cfgNoClient [] (ServiceBehavior.ok none) =
      Classification.CannotAnswer ∧
    (CANNOT_ANSWER_MARKER == NOT_A_QUESTION_MARKER) = false := by decide

/-- C8 (amended): escalation message content. The cannot-answer moderator
    message contains the question truncated to its first 500 characters (the
    whole question whenever it is at most 500 characters long) along with the
    chat/sender header and the deep link; the delivery-failed moderator
    message contains the question truncated to 300 characters, the complete
    ordered per-attempt summary, and the undeliverable answer truncated to
    its first 1000 characters (the whole answer when within that limit). -/
theorem escalation_content (m : Msg) (q ans : List Char)
    (attempts : List DeliveryAttempt) (perr : Option (List Char)) :
    (q.take 500 <:+: questionAlertMessage m q perr) ∧
    (build_message_link m.chat_id m.message_id <:+: questionAlertMessage m q perr) ∧
    (q.length ≤ 500 → q <:+: questionAlertMessage m q perr) ∧
    (q.take 300 <:+: deliveryFailedMessage m q ans attempts) ∧
    (attemptsSummary attempts <:+: deliveryFailedMessage m q ans attempts) ∧
    (ans.take 1000 <:+: deliveryFailedMessage m q ans attempts) ∧
    (ans.length ≤ 1000 → ans <:+: deliveryFailedMessage m q ans attempts) := by
  have h1 : q.take 500 <:+: questionAlertMessage m q perr := by
    refine ⟨qaHeader m,
      (if 500 < q.length then "...".toList else []) ++ "\n**Link:** ".toList ++
        build_message_link m.chat_id m.message_id ++ qaErrInfo perr, ?_⟩
    simp [questionAlertMessage, List.append_assoc]
  have h2 : build_message_link m.chat_id m.message_id <:+:
      questionAlertMessage m q perr := by
    refine ⟨qaHeader m ++ q.take 500 ++
      (if 500 < q.length then "...".toList else []) ++ "\n**Link:** ".toList,
      qaErrInfo perr, ?_⟩
    simp [questionAlertMessage, List.append_assoc]
  have h4 : q.take 300 <:+: deliveryFailedMessage m q ans attempts := by
    refine ⟨dfHeader m,
      (if 300 < q.length then "...".toList else []) ++
        "\n\n**Delivery Attempts:**\n".toList ++ attemptsSummary attempts ++
        "\n\n**LLM Answer:**\n".toList ++ ans.take 1000 ++
        (if 1000 < ans.length then "...".toList else []), ?_⟩
    simp [deliveryFailedMessage, List.append_assoc]
  have h5 : attemptsSummary attempts <:+: deliveryFailedMessage m q ans attempts := by
    refine ⟨dfHeader m ++ q.take 300 ++
      (if 300 < q.length then "...".toList else []) ++
      "\n\n**Delivery Attempts:**\n".toList,
      "\n\n**LLM Answer:**\n".toList ++ ans.take 1000 ++
        (if 1000 < ans.length then "...".toList else []), ?_⟩
    simp [deliveryFailedMessage, List.append_assoc]
  have h6 : ans.take 1000 <:+: deliveryFailedMessage m q ans attempts := by
    refine ⟨dfHeader m ++ q.take 300 ++
      (if 300 < q.length then "...".toList else []) ++
      "\n\n**Delivery Attempts:**\n".toList ++ attemptsSummary attempts ++
      "\n\n**LLM Answer:**\n".toList,
      (if 1000 < ans.length then "...".toList else []), ?_⟩
    simp [deliveryFailedMessage, List.append_assoc]
  refine ⟨h1, h2, ?_, h4, h5, h6, ?_⟩
  · intro hq
    have ht : q.take 500 = q := List.take_of_length_le hq
    rw [ht] at h1
    exact h1
  · intro ha
    have ht : ans.take 1000 = ans := List.take_of_length_le ha
    rw [ht] at h6
    exact h6

/-- C8 witness: on a concrete short question and short answer, the full
    question is contained in the cannot-answer message and the full answer is
    contained in the delivery-failed message. -/
theorem escalation_content_witness :
    ("Why?".toList <:+: questionAlertMessage mAdv ("Why?".toList) none) ∧
    ("Ans".toList <:+:
       deliveryFailedMessage mAdv ("Why?".toList) ("Ans".toList) []) :=
  ⟨(escalation_content mAdv ("Why?".toList) ("Ans".toList) [] none).2.2.1
     (by decide),
   (escalation_content mAdv ("Why?".toList) ("Ans".toList) [] none).2.2.2.2.2.2
     (by decide)⟩

set_option maxRecDepth 100000 in
/-- C8 counterexample: a 501-character question is NOT contained in the
    cannot-answer moderator message built for it — the template embeds only
    its first 500 characters followed by an ellipsis — so the message does
    not contain the full question text. -/
theorem question_alert_truncates :
    decide (List.replicate 501 'z' <:+:
      questionAlertMessage mAdv (List.replicate 501 'z') none) = false := by
  rw [decide_eq_false_iff_not]
  intro hinf
  have hle := hinf.sublist.count_le 'z'
  rw [List.count_replicate_self] at hle
  have hc : (questionAlertMessage mAdv (List.replicate 501 'z') none).count 'z'
      = 500 := by decide
  rw [hc] at hle
  omega
